import Mathlib

/-!
Verification of the resharding oplog applier
(src/mongo/db/s/resharding/resharding_oplog_applier.cpp).

The C++ file is shallowly embedded below.  Machine words that matter are
modelled as Nat/Int; BSON documents become an inductive tree; fallible
code (uassert / uasserted / invariant) becomes Except with the uassert
error code as payload (the sentinel code 0 is used for an unchecked
optional dereference, i.e. a C++ precondition, and the sentinel code 1
for an invariant() failure, neither of which carries a server error
code).  Collaborators that live outside this file (the repl oplog
applier utilities and the transaction participant) are modelled from the
spec where noted.
-/

/-- Operation type of an oplog entry (repl::OpTypeEnum). -/
inductive OpTypeEnum where
  | kNoop
  | kInsert
  | kUpdate
  | kDelete
  | kCommand
deriving DecidableEq, Repr

/-- BSON object values, as far as this file inspects them: the two tag
documents the applier builds, documents assembled field by field, and
primitive values. -/
inductive Bson where
  | null
  | bnat (n : Nat)
  | bint (i : Int)
  | bstr (s : String)
  | bbool (b : Bool)
  | doc (fields : List (String × Bson))

/-- kReshardingOplogTag: BSON("$resharding" << 1). -/
def kReshardingOplogTag : Bson :=
  Bson.doc [("$resharding", Bson.bnat 1)]

/-- BSON("$reshardingOplogApply" << 1), the object the retryable-apply
path writes into the marker no-op oplog entry. -/
def kReshardingOplogApplyObj : Bson :=
  Bson.doc [("$reshardingOplogApply", Bson.bnat 1)]

/-- op.getObject().woCompare(kReshardingOplogTag) == 0, decided
structurally (woCompare returns 0 exactly on equal documents). -/
def Bson.isReshardingTag : Bson → Bool
  | Bson.doc [("$resharding", Bson.bnat 1)] => true
  | _ => false

/-- The durable (serialized) part of an oplog entry
(repl::DurableOplogEntry), with exactly the fields the applier touches,
in the order of the 18-argument constructor used in the C++ file.
`shouldPrepareFlag` and `isPreparedCommitFlag` abstract the external
predicates OplogEntry::shouldPrepare() / isPreparedCommit(), which are
pure functions of the entry's command content; they are carried as
fields because the content they inspect is otherwise opaque here. -/
structure DurableOplogEntry where
  opTime : Nat
  hash : Option Int
  opType : OpTypeEnum
  nss : String
  uuid : Option Nat
  fromMigrate : Option Bool
  version : Option Nat
  object : Bson
  object2 : Option Bson
  sessionId : Option Nat
  txnNumber : Option Nat
  upsert : Option Bool
  wallClockTime : Nat
  stmtId : Option Int
  prevWriteOpTime : Option Nat
  preImageOpTime : Option Nat
  postImageOpTime : Option Nat
  destinedRecipient : Option Nat
  oid : Option Nat
  shouldPrepareFlag : Bool := false
  isPreparedCommitFlag : Bool := false

/-- Name under which an op type serializes ("op" field). -/
def opTypeName : OpTypeEnum → String
  | OpTypeEnum.kNoop => "n"
  | OpTypeEnum.kInsert => "i"
  | OpTypeEnum.kUpdate => "u"
  | OpTypeEnum.kDelete => "d"
  | OpTypeEnum.kCommand => "c"

/-- Serialize an optional field (absent fields serialize as null here;
only equality of serialized forms matters to the development). -/
def optBson {α : Type} (f : α → Bson) : Option α → Bson
  | none => Bson.null
  | some a => f a

/-- DurableOplogEntry::toBSON(): the full serialized form of the durable
entry, every field included. -/
def DurableOplogEntry.toBSON (e : DurableOplogEntry) : Bson :=
  Bson.doc [("ts", Bson.bnat e.opTime),
            ("h", optBson Bson.bint e.hash),
            ("op", Bson.bstr (opTypeName e.opType)),
            ("ns", Bson.bstr e.nss),
            ("ui", optBson Bson.bnat e.uuid),
            ("fromMigrate", optBson Bson.bbool e.fromMigrate),
            ("version", optBson Bson.bnat e.version),
            ("o", e.object),
            ("o2", optBson id e.object2),
            ("lsid", optBson Bson.bnat e.sessionId),
            ("txnNumber", optBson Bson.bnat e.txnNumber),
            ("upsert", optBson Bson.bbool e.upsert),
            ("wall", Bson.bnat e.wallClockTime),
            ("stmtId", optBson Bson.bint e.stmtId),
            ("prevOpTime", optBson Bson.bnat e.prevWriteOpTime),
            ("preImageOpTime", optBson Bson.bnat e.preImageOpTime),
            ("postImageOpTime", optBson Bson.bnat e.postImageOpTime),
            ("destinedRecipient", optBson Bson.bnat e.destinedRecipient),
            ("_id", optBson Bson.bnat e.oid)]

/-- repl::OplogEntry: the durable entry plus the non-durable pre/post
image companion entries. -/
structure OplogEntry where
  entry : DurableOplogEntry
  preImageOp : Option DurableOplogEntry := none
  postImageOp : Option DurableOplogEntry := none

/-- OplogEntry::getSessionId(). -/
def OplogEntry.getSessionId (op : OplogEntry) : Option Nat :=
  op.entry.sessionId

/-- convertToNoOpWithReshardingTag (lines 392-417): builds the derived
"shadow" oplog entry for a session op.  Every constructor argument is
copied from the original except: the op type becomes kNoop, the uuid is
passed as boost::none, the object becomes kReshardingOplogTag and the
o2 field receives the original entry's full serialized form.  Note the
namespace argument is oplog.getNss(), i.e. it is copied through. -/
def convertToNoOpWithReshardingTag (oplog : OplogEntry) : OplogEntry :=
  { entry :=
      { opTime := oplog.entry.opTime
        hash := oplog.entry.hash
        opType := OpTypeEnum.kNoop
        nss := oplog.entry.nss
        uuid := none
        fromMigrate := oplog.entry.fromMigrate
        version := oplog.entry.version
        object := kReshardingOplogTag
        object2 := some oplog.entry.toBSON
        sessionId := oplog.entry.sessionId
        txnNumber := oplog.entry.txnNumber
        upsert := oplog.entry.upsert
        wallClockTime := oplog.entry.wallClockTime
        stmtId := oplog.entry.stmtId
        prevWriteOpTime := oplog.entry.prevWriteOpTime
        preImageOpTime := oplog.entry.preImageOpTime
        postImageOpTime := oplog.entry.postImageOpTime
        destinedRecipient := oplog.entry.destinedRecipient
        oid := oplog.entry.oid
        shouldPrepareFlag := false
        isPreparedCommitFlag := false }
    preImageOp := oplog.preImageOp
    postImageOp := oplog.postImageOp }

/-- Static configuration of one ReshardingOplogApplier instance: the
constructor arguments the embedded functions consult. -/
structure ApplierConfig where
  numWriters : Nat
  sourceId : Nat
  nsBeingResharded : String
  uuidBeingResharded : Nat
  outputNs : String
  reshardingCloneFinishedTs : Nat

/-- _preProcessAndPushOpsToBuffer (lines 530-563) as the per-entry
transformation: uassert 5012002 when the namespace differs from the one
being resharded, uassert 5012005 when the uuid differs (an absent uuid
differs from any concrete uuid), otherwise a copy of the entry with the
namespace replaced by the output namespace and the uuid cleared. -/
def preProcessOneOplog (cfg : ApplierConfig) (oplog : OplogEntry) :
    Except Nat OplogEntry :=
  if cfg.nsBeingResharded ≠ oplog.entry.nss then
    Except.error 5012002
  else if some cfg.uuidBeingResharded ≠ oplog.entry.uuid then
    Except.error 5012005
  else
    Except.ok
      { entry := { oplog.entry with nss := cfg.outputNs, uuid := none }
        preImageOp := oplog.preImageOp
        postImageOp := oplog.postImageOp }

/-- The preprocessing loop of _scheduleNextBatch (lines 305-309): each
fetched entry is preprocessed and pushed onto _currentBatchToApply; a
uassert aborts the loop, keeping the entries already pushed. -/
def preProcessLoop (cfg : ApplierConfig) :
    List OplogEntry → List OplogEntry → List OplogEntry × Option Nat
  | [], buf => (buf, none)
  | op :: rest, buf =>
    match preProcessOneOplog cfg op with
    | Except.error e => (buf, some e)
    | Except.ok newOp => preProcessLoop cfg rest (buf ++ [newOp])

/-- Append a record to worker slot i (writerVectors[i].push_back).  An
out-of-range index leaves the vectors unchanged; every call site indexes
with a hash modulo the vector count, which is in range. -/
def updateSlot {α : Type} : List (List α) → Nat → α → List (List α)
  | [], _, _ => []
  | s :: rest, 0, x => (s ++ [x]) :: rest
  | s :: rest, Nat.succ i, x => s :: updateSlot rest i x

/-- Modelled from the spec: repl::OplogApplierUtils::addToWriterVector
is not part of this repository snapshot (only its caller is).  Per the
spec, every record whose session identity is present is routed to the
slot given by a stable hash of the session identity modulo the slot
count, and records without a session identity are distributed by the
per-namespace routing rule of the apply primitive.  Both hash functions
are parameters. -/
def addToWriterVector (hasher : Nat → Nat) (nsHasher : String → Nat)
    (op : OplogEntry) (wv : List (List OplogEntry)) : List (List OplogEntry) :=
  match op.entry.sessionId with
  | some sid => updateSlot wv (hasher sid % wv.length) op
  | none => updateSlot wv (nsHasher op.entry.nss % wv.length) op

/-- The per-session tracking structure of _fillWriterVectors.  In the
C++ header RetryableOpsList initializes txnNum to
kUninitializedTxnNumber (-1), below the txnNumber of any oplog entry;
none models that uninitialized value. -/
structure RetryableOpsList where
  txnNum : Option Nat := none
  ops : List OplogEntry := []

/-- Replace the value bound to key k, or append the binding if the key
is new (the insertion effect of sessionTracker[k]). -/
def setAssoc {β : Type} : List (Nat × β) → Nat → β → List (Nat × β)
  | [], k, v => [(k, v)]
  | (k', v') :: rest, k, v =>
    if k' = k then (k, v) :: rest else (k', v') :: setAssoc rest k v

/-- The state threaded through the batch loop of _fillWriterVectors:
the writer vectors under construction and the session tracker. -/
structure FillState where
  wv : List (List OplogEntry)
  sessionTracker : List (Nat × RetryableOpsList)

/-- One iteration of the batch loop of _fillWriterVectors
(lines 442-474): uassert 5012000/5012001 on prepared-transaction
records, skip no-ops, add the record to its writer vector, and for
session records update the per-session tracked op list: equal txnNumber
appends, larger txnNumber resets the list to this record, smaller
txnNumber is uasserted 4990401 (out of order).  Error code 0 models the
unchecked dereference *op.getTxnNumber() for a session record without a
txnNumber. -/
def fillStep (hasher : Nat → Nat) (nsHasher : String → Nat)
    (st : FillState) (op : OplogEntry) : Except Nat FillState :=
  if op.entry.shouldPrepareFlag then Except.error 5012000
  else if op.entry.isPreparedCommitFlag then Except.error 5012001
  else if op.entry.opType = OpTypeEnum.kNoop then Except.ok st
  else
    let wv := addToWriterVector hasher nsHasher op st.wv
    match op.entry.sessionId with
    | none => Except.ok { st with wv := wv }
    | some sid =>
      match op.entry.txnNumber with
      | none => Except.error 0
      | some txnNumber =>
        let retryableOpList :=
          ((st.sessionTracker.lookup sid).getD {})
        match retryableOpList.txnNum with
        | some t0 =>
          if t0 = txnNumber then
            Except.ok
              { wv := wv
                sessionTracker := setAssoc st.sessionTracker sid
                  { txnNum := some txnNumber
                    ops := retryableOpList.ops ++ [op] } }
          else if t0 < txnNumber then
            Except.ok
              { wv := wv
                sessionTracker := setAssoc st.sessionTracker sid
                  { txnNum := some txnNumber, ops := [op] } }
          else Except.error 4990401
        | none =>
          Except.ok
            { wv := wv
              sessionTracker := setAssoc st.sessionTracker sid
                { txnNum := some txnNumber, ops := [op] } }

/-- The batch loop of _fillWriterVectors, with a thrown uassert
aborting the loop. -/
def fillLoop (hasher : Nat → Nat) (nsHasher : String → Nat) :
    List OplogEntry → FillState → Except Nat FillState
  | [], st => Except.ok st
  | op :: rest, st =>
    match fillStep hasher nsHasher st op with
    | Except.error e => Except.error e
    | Except.ok st' => fillLoop hasher nsHasher rest st'

/-- The derivation loop of _fillWriterVectors (lines 476-481): one
shadow record per tracked op of every tracked session, in tracker
order. -/
def deriveNewOps (sessionTracker : List (Nat × RetryableOpsList)) :
    List OplogEntry :=
  sessionTracker.flatMap
    (fun s => s.2.ops.map convertToNoOpWithReshardingTag)

/-- addDerivedOpsToWriterVector (lines 419-432): each derived op must
carry the resharding tag (invariant, sentinel code 1) and a session id
(uassert 4990403), and is pushed onto the slot given by the session id
hash modulo the slot count. -/
def addDerivedOpsToWriterVector (hasher : Nat → Nat)
    (wv : List (List OplogEntry)) :
    List OplogEntry → Except Nat (List (List OplogEntry))
  | [] => Except.ok wv
  | op :: rest =>
    if ¬ op.entry.object.isReshardingTag then Except.error 1
    else
      match op.entry.sessionId with
      | none => Except.error 4990403
      | some sid =>
        addDerivedOpsToWriterVector hasher
          (updateSlot wv (hasher sid % wv.length) op) rest

/-- _fillWriterVectors (lines 434-486) end to end: run the batch loop
on numWriters empty slots, derive the shadow records, append them to the
already-buffered derived ops, route all of those by the session hash,
and return the finished writer vectors together with the updated derived
op buffer. -/
def fillWriterVectors (numWriters : Nat) (hasher : Nat → Nat)
    (nsHasher : String → Nat) (batch : List OplogEntry)
    (derivedIn : List OplogEntry) :
    Except Nat (List (List OplogEntry) × List OplogEntry) :=
  match fillLoop hasher nsHasher batch
      { wv := List.replicate numWriters [], sessionTracker := [] } with
  | Except.error e => Except.error e
  | Except.ok st =>
    let derivedAll := derivedIn ++ deriveNewOps st.sessionTracker
    match addDerivedOpsToWriterVector hasher st.wv derivedAll with
    | Except.error e => Except.error e
    | Except.ok wv => Except.ok (wv, derivedAll)

/-- Terminal status of a worker, and the consolidated status of a
batch: OK or an error code. -/
inductive Status where
  | ok
  | error (code : Nat)
deriving DecidableEq, Repr

/-- The completion accounting guarded by _mutex in _applyBatch /
_onWriterVectorDone: the outstanding worker count, the consolidated
status, and the one-shot promise (none while undelivered). -/
structure BatchApplyState where
  remainingWritersToWait : Nat
  currentBatchConsolidatedStatus : Status
  promise : Option Status
deriving DecidableEq, Repr

/-- _onWriterVectorDone (lines 570-600): decrement the outstanding
count; a non-OK status overwrites the consolidated status; when the
count reaches zero the consolidated status is delivered to the batch's
promise.  The C++ invariant that the count is positive on entry holds
at every call site because exactly one completion is reported per
scheduled slot. -/
def onWriterVectorDone (st : BatchApplyState) (status : Status) :
    BatchApplyState :=
  let remaining := st.remainingWritersToWait - 1
  let consolidated :=
    match status with
    | Status.ok => st.currentBatchConsolidatedStatus
    | Status.error c => Status.error c
  { remainingWritersToWait := remaining
    currentBatchConsolidatedStatus := consolidated
    promise := if remaining = 0 then some consolidated else st.promise }

/-- _applyBatch (lines 354-385) after the writer vectors are built:
every slot reports exactly one terminal status — Status.ok immediately
for an empty slot, otherwise the worker's status (a scheduling failure
is reported the same way as a work failure).  The concurrent completions
are rendered as a left fold in slot order; the claims proved below
depend only on facts invariant under reordering. -/
def applyBatchCompletion (applySlot : List OplogEntry → Status)
    (wv : List (List OplogEntry)) : BatchApplyState :=
  (wv.map (fun w => if w.isEmpty then Status.ok else applySlot w)).foldl
    onWriterVectorDone
    { remainingWritersToWait := wv.length
      currentBatchConsolidatedStatus := Status.ok
      promise := none }

/-- The status the batch's waiter receives.  With at least one slot the
promise is always fulfilled; the default is never consulted at any call
site with numWriters > 0. -/
def applyBatchOutcome (applySlot : List OplogEntry → Status)
    (wv : List (List OplogEntry)) : Status :=
  (applyBatchCompletion applySlot wv).promise.getD Status.ok

/-- ReshardingOplogApplier::Stage. -/
inductive Stage where
  | kStarted
  | kReachedCloningTS
  | kFinished
  | kErrorOccurred
deriving DecidableEq, Repr

/-- The mutable members of ReshardingOplogApplier the pipeline touches
between batches, plus the persisted progress store
(config.localReshardingOperations.recipient.progress_applier), an
association from source id to the stored oplog id token. -/
structure PipelineState where
  stage : Stage
  currentBatchToApply : List OplogEntry
  currentDerivedOps : List OplogEntry
  progressStore : List (Nat × Nat)

/-- ReshardingOplogApplier::checkStoredProgress (lines 602-615): a
findOne on the progress namespace keyed by the source id; an empty
result is boost::none, otherwise the parsed progress document (its
oplog-id token). -/
def checkStoredProgress (progressStore : List (Nat × Nat))
    (sourceId : Nat) : Option Nat :=
  progressStore.lookup sourceId

/-- _clearAppliedOpsAndStoreProgress (lines 617-640): read the last
entry of the batch buffer, parse its _id into the resumption token,
upsert the token into the progress store keyed by the source id, clear
both in-memory buffers and return the last entry's timestamp.  Both
match defaults are unreachable at the call site: the caller has checked
the buffer non-empty, and applier oplog entries carry an _id. -/
def clearAppliedOpsAndStoreProgress (sourceId : Nat)
    (st : PipelineState) : Nat × PipelineState :=
  match st.currentBatchToApply.getLast? with
  | none => (0, st)
  | some lastOplog =>
    match lastOplog.entry.oid with
    | none => (0, st)
    | some oplogId =>
      (lastOplog.entry.opTime,
       { st with
           progressStore := setAssoc st.progressStore sourceId oplogId
           currentBatchToApply := []
           currentDerivedOps := [] })

/-- _onError (lines 565-568): record the terminal stage; the status is
returned to the caller unchanged. -/
def onErrorTransition (st : PipelineState) : PipelineState :=
  { st with stage := Stage.kErrorOccurred }

/-- The outcome of one pipeline iteration: the status surfaced to the
caller, the applier state afterwards, and whether _scheduleNextBatch
recurses for another batch. -/
structure StepResult where
  status : Status
  state : PipelineState
  moreToApply : Bool

/-- One iteration of _scheduleNextBatch (lines 297-352) given the batch
the oplog iterator produced, with _onError from the surrounding future
chain applied to any failure: preprocess and buffer the fetched entries,
build the writer vectors (mutating the derived-op buffer), wait for the
workers' consolidated status, and on success either finish (empty
batch: advance the stage), or checkpoint and decide whether more remains
to apply.  applySlot abstracts _applyOplogBatchPerWorker. -/
def scheduleNextBatchOnce (cfg : ApplierConfig) (hasher : Nat → Nat)
    (nsHasher : String → Nat) (applySlot : List OplogEntry → Status)
    (st : PipelineState) (fetched : List OplogEntry) : StepResult :=
  match preProcessLoop cfg fetched st.currentBatchToApply with
  | (buf, some e) =>
    { status := Status.error e
      state := onErrorTransition { st with currentBatchToApply := buf }
      moreToApply := false }
  | (buf, none) =>
    let st1 := { st with currentBatchToApply := buf }
    match fillLoop hasher nsHasher st1.currentBatchToApply
        { wv := List.replicate cfg.numWriters [], sessionTracker := [] } with
    | Except.error e =>
      { status := Status.error e
        state := onErrorTransition st1
        moreToApply := false }
    | Except.ok fillSt =>
      let derivedAll := st1.currentDerivedOps ++ deriveNewOps fillSt.sessionTracker
      let st2 := { st1 with currentDerivedOps := derivedAll }
      match addDerivedOpsToWriterVector hasher fillSt.wv derivedAll with
      | Except.error e =>
        { status := Status.error e
          state := onErrorTransition st2
          moreToApply := false }
      | Except.ok wv =>
        match applyBatchOutcome applySlot wv with
        | Status.error c =>
          { status := Status.error c
            state := onErrorTransition st2
            moreToApply := false }
        | Status.ok =>
          if st2.currentBatchToApply.isEmpty then
            let stage' :=
              if st2.stage = Stage.kStarted then Stage.kReachedCloningTS
              else if st2.stage = Stage.kReachedCloningTS then Stage.kFinished
              else st2.stage
            { status := Status.ok
              state := { st2 with stage := stage' }
              moreToApply := false }
          else
            let (lastAppliedTs, st3) :=
              clearAppliedOpsAndStoreProgress cfg.sourceId st2
            if st3.stage = Stage.kStarted ∧
                cfg.reshardingCloneFinishedTs ≤ lastAppliedTs then
              { status := Status.ok
                state := { st3 with stage := Stage.kReachedCloningTS }
                moreToApply := false }
            else
              { status := Status.ok, state := st3, moreToApply := true }

/-- The destination node's per-session retry bookkeeping, i.e. the
state the TransactionParticipant and config.transactions hold for one
logical session. -/
structure SessionRecord where
  activeTxnNum : Nat
  executedStmts : List Int
  lastWriteOpTime : Nat
deriving DecidableEq, Repr

/-- The destination-node state insertOplogAndUpdateConfigForRetryable
reads and writes: the per-session records, the local oplog (entries
appended by repl::logOp), the next op time logOp will assign (positive
on a real node, so logged op times are never null), and the wall clock
reading used for Date_t::now(). -/
structure SessionApplyState where
  sessions : List (Nat × SessionRecord)
  oplog : List DurableOplogEntry
  nextOpTime : Nat
  now : Nat

/-- insertPrePostImageOplogEntry (lines 72-109): uassert 4990408 unless
the image entry is a no-op, then log a copy with a freshly assigned op
time and the current wall clock (uassert 4990409 if logOp handed back a
null op time).  Returns the assigned op time and the updated state. -/
def insertPrePostImageOplogEntry (st : SessionApplyState)
    (prePostImageOp : DurableOplogEntry) :
    Except Nat (Nat × SessionApplyState) :=
  if prePostImageOp.opType ≠ OpTypeEnum.kNoop then Except.error 4990408
  else if st.nextOpTime = 0 then Except.error 4990409
  else
    Except.ok (st.nextOpTime,
      { st with
          oplog := st.oplog ++
            [{ prePostImageOp with
                 opTime := st.nextOpTime
                 wallClockTime := st.now }]
          nextOpTime := st.nextOpTime + 1 })

/-- The write phase of insertOplogAndUpdateConfigForRetryable
(lines 157-213), reached when the statement has not yet been executed:
log the pre- or post-image if present, build the marker no-op from the
incoming entry (o2 := the entry's full serialized form, namespace
cleared, object := the resharding-apply tag, image op time pointed at
the freshly logged image, prev op time := the participant's last write
op time), log it, and record the statement as executed with the
marker's op time as the session's last write (uassert 4990402 on a null
logged op time).  `executedStmts` and `lastWriteOpTime` are the
participant's values after beginOrContinue. -/
def applyRetryableWritePhase (st : SessionApplyState) (oplog : OplogEntry)
    (sid txnNumber : Nat) (stmtId : Int) (executedStmts : List Int)
    (lastWriteOpTime : Nat) : Except Nat SessionApplyState :=
  let imageStep : Except Nat (Option Nat × SessionApplyState) :=
    match oplog.preImageOp with
    | some img =>
      match insertPrePostImageOplogEntry st img with
      | Except.error e => Except.error e
      | Except.ok (t, st') => Except.ok (some t, st')
    | none =>
      match oplog.postImageOp with
      | some img =>
        match insertPrePostImageOplogEntry st img with
        | Except.error e => Except.error e
        | Except.ok (t, st') => Except.ok (some t, st')
      | none => Except.ok (none, st)
  match imageStep with
  | Except.error e => Except.error e
  | Except.ok (imageOpTime, st1) =>
    if st1.nextOpTime = 0 then Except.error 4990402
    else
      let markerOpTime := st1.nextOpTime
      let noOpOplog : DurableOplogEntry :=
        { oplog.entry with
            object2 := some oplog.entry.toBSON
            nss := ""
            object := kReshardingOplogApplyObj
            preImageOpTime :=
              if oplog.preImageOp.isSome then imageOpTime
              else oplog.entry.preImageOpTime
            postImageOpTime :=
              if oplog.preImageOp.isNone ∧ oplog.postImageOp.isSome then
                imageOpTime
              else oplog.entry.postImageOpTime
            prevWriteOpTime := some lastWriteOpTime
            opType := OpTypeEnum.kNoop
            opTime := markerOpTime
            wallClockTime := st1.now }
      Except.ok
        { st1 with
            oplog := st1.oplog ++ [noOpOplog]
            nextOpTime := markerOpTime + 1
            sessions := setAssoc st1.sessions sid
              { activeTxnNum := txnNumber
                executedStmts := executedStmts ++ [stmtId]
                lastWriteOpTime := markerOpTime } }

/-- insertOplogAndUpdateConfigForRetryable (lines 115-214).  The
session/transaction collaborator is modelled from the spec
(beginOrResumeSession / isStatementAlreadyExecuted / recordCompletion,
spec section 6): beginOrContinue with a txnNumber below the session's
active one throws TransactionTooOld, which the function catches and
turns into Status::OK with nothing applied; an equal txnNumber resumes
the session; a higher one (or an unknown session) restarts the
bookkeeping with no executed statements and a null last-write op time.
If the statement is already recorded as executed the function returns
Status::OK with nothing applied; otherwise the write phase runs.  Error
code 0 models the unchecked dereferences of getTxnNumber / getSessionId
/ getStatementId. -/
def insertOplogAndUpdateConfigForRetryable (st : SessionApplyState)
    (oplog : OplogEntry) : Except Nat SessionApplyState :=
  match oplog.entry.sessionId, oplog.entry.txnNumber, oplog.entry.stmtId with
  | some sid, some txnNumber, some stmtId =>
    match st.sessions.lookup sid with
    | some r =>
      if txnNumber < r.activeTxnNum then Except.ok st
      else if txnNumber = r.activeTxnNum then
        if stmtId ∈ r.executedStmts then Except.ok st
        else
          applyRetryableWritePhase st oplog sid txnNumber stmtId
            r.executedStmts r.lastWriteOpTime
      else
        applyRetryableWritePhase st oplog sid txnNumber stmtId [] 0
    | none =>
      applyRetryableWritePhase st oplog sid txnNumber stmtId [] 0
  | _, _, _ => Except.error 0

/-! ### Helper lemmas -/

theorem lookup_setAssoc_self {β : Type} (l : List (Nat × β)) (k : Nat) (v : β) :
    (setAssoc l k v).lookup k = some v := by
  induction l with
  | nil => simp [setAssoc, List.lookup]
  | cons hd tl ih =>
    obtain ⟨a, b⟩ := hd
    by_cases h : a = k
    · simp [setAssoc, h, List.lookup]
    · have hka : (k == a) = false :=
        beq_eq_false_iff_ne.mpr (fun hh => h hh.symm)
      simp [setAssoc, h, List.lookup, hka, ih]

theorem length_updateSlot {α : Type} (wv : List (List α)) (i : Nat) (x : α) :
    (updateSlot wv i x).length = wv.length := by
  induction wv generalizing i with
  | nil => rfl
  | cons s rest ih =>
    cases i with
    | zero => simp [updateSlot]
    | succ j => simp [updateSlot, ih]

theorem mem_getD_updateSlot {α : Type} (wv : List (List α)) (i j : Nat)
    (x e : α) (h : e ∈ (updateSlot wv i x).getD j []) :
    e ∈ wv.getD j [] ∨ (e = x ∧ j = i) := by
  induction wv generalizing i j with
  | nil => simp [updateSlot] at h
  | cons s rest ih =>
    cases i with
    | zero =>
      cases j with
      | zero =>
        simp only [updateSlot, List.getD_cons_zero] at h
        rcases List.mem_append.mp h with h' | h'
        · exact Or.inl h'
        · simp at h'
          exact Or.inr ⟨h', rfl⟩
      | succ j' =>
        simp only [updateSlot, List.getD_cons_succ] at h
        exact Or.inl h
    | succ i' =>
      cases j with
      | zero =>
        simp only [updateSlot, List.getD_cons_zero] at h
        exact Or.inl h
      | succ j' =>
        simp only [updateSlot, List.getD_cons_succ] at h
        rcases ih i' j' h with h' | ⟨he, hj⟩
        · exact Or.inl h'
        · exact Or.inr ⟨he, by omega⟩

theorem getD_replicate_nil {α : Type} (n j : Nat) :
    (List.replicate n ([] : List α)).getD j [] = [] := by
  induction n generalizing j with
  | zero => simp
  | succ m ih =>
    cases j with
    | zero => simp [List.replicate]
    | succ j' => simp [List.replicate, ih]

/-! ### Concrete sample data used by witnesses -/

/-- A concrete insert oplog entry carrying a session identity, in the
namespace and collection being resharded in the sample config. -/
def sampleDurable : DurableOplogEntry :=
  { opTime := 5
    hash := none
    opType := OpTypeEnum.kInsert
    nss := "test.user"
    uuid := some 7
    fromMigrate := none
    version := none
    object := Bson.doc [("x", Bson.bnat 1)]
    object2 := none
    sessionId := some 11
    txnNumber := some 2
    upsert := none
    wallClockTime := 3
    stmtId := some 0
    prevWriteOpTime := none
    preImageOpTime := none
    postImageOpTime := none
    destinedRecipient := none
    oid := some 42 }

/-- The sample entry wrapped as a full oplog entry. -/
def sampleSessionOp : OplogEntry :=
  { entry := sampleDurable }

/-- A sample applier configuration accepting sampleSessionOp. -/
def sampleConfig : ApplierConfig :=
  { numWriters := 1
    sourceId := 5
    nsBeingResharded := "test.user"
    uuidBeingResharded := 7
    outputNs := "test.system.resharding.7"
    reshardingCloneFinishedTs := 100 }

/-! ### C6 — the derived shadow record -/

/-- C6 counterexample: the claim says the derived shadow record's
target namespace is cleared, but convertToNoOpWithReshardingTag passes
oplog.getNss() through unchanged — for the sample entry the shadow
record's namespace is still "test.user", not the empty namespace.  (It
is the apply-time path, insertOplogAndUpdateConfigForRetryable, that
clears the namespace of the marker entry it logs.) -/
theorem shadow_record_keeps_namespace_counterexample :
    (convertToNoOpWithReshardingTag sampleSessionOp).entry.nss = "test.user" ∧
    ("test.user" : String) ≠ "" :=
  ⟨rfl, by decide⟩

/-- C6 amended: for every original record, the derived shadow record is
a no-op whose payload (o2) carries the original record's full
serialized form, whose target namespace is kept equal to the original's
(it is cleared only later, when the shadow record is applied), whose
collection UUID is cleared, and whose pre- and post-image references —
both the image op times and the carried image entries — equal the
original's unchanged, as do its session id, transaction number and
statement id. -/
theorem shadow_record_shape (oplog : OplogEntry) :
    (convertToNoOpWithReshardingTag oplog).entry.opType = OpTypeEnum.kNoop ∧
    (convertToNoOpWithReshardingTag oplog).entry.object = kReshardingOplogTag ∧
    (convertToNoOpWithReshardingTag oplog).entry.object2 =
      some oplog.entry.toBSON ∧
    (convertToNoOpWithReshardingTag oplog).entry.nss = oplog.entry.nss ∧
    (convertToNoOpWithReshardingTag oplog).entry.uuid = none ∧
    (convertToNoOpWithReshardingTag oplog).entry.preImageOpTime =
      oplog.entry.preImageOpTime ∧
    (convertToNoOpWithReshardingTag oplog).entry.postImageOpTime =
      oplog.entry.postImageOpTime ∧
    (convertToNoOpWithReshardingTag oplog).preImageOp = oplog.preImageOp ∧
    (convertToNoOpWithReshardingTag oplog).postImageOp = oplog.postImageOp ∧
    (convertToNoOpWithReshardingTag oplog).entry.sessionId =
      oplog.entry.sessionId ∧
    (convertToNoOpWithReshardingTag oplog).entry.txnNumber =
      oplog.entry.txnNumber ∧
    (convertToNoOpWithReshardingTag oplog).entry.stmtId = oplog.entry.stmtId :=
  ⟨rfl, rfl, rfl, rfl, rfl, rfl, rfl, rfl, rfl, rfl, rfl, rfl⟩

/-! ### C10 — preprocessing of fetched records -/

/-- C10: preprocessing a fetched record fails exactly when the record's
namespace differs from the namespace being resharded or its collection
UUID differs from the UUID being resharded (an absent UUID differs);
every accepted record comes out with the namespace replaced by the
output namespace, the UUID cleared, and every other field unchanged. -/
theorem preprocess_accepts_exactly_matching_records
    (cfg : ApplierConfig) (oplog : OplogEntry) :
    ((∃ e, preProcessOneOplog cfg oplog = Except.error e) ↔
      (oplog.entry.nss ≠ cfg.nsBeingResharded ∨
       oplog.entry.uuid ≠ some cfg.uuidBeingResharded)) ∧
    (∀ newOp, preProcessOneOplog cfg oplog = Except.ok newOp →
      newOp.entry.nss = cfg.outputNs ∧
      newOp.entry.uuid = none ∧
      newOp.entry.opType = oplog.entry.opType ∧
      newOp.entry.object = oplog.entry.object ∧
      newOp.entry.object2 = oplog.entry.object2 ∧
      newOp.entry.sessionId = oplog.entry.sessionId ∧
      newOp.entry.txnNumber = oplog.entry.txnNumber ∧
      newOp.entry.stmtId = oplog.entry.stmtId ∧
      newOp.entry.preImageOpTime = oplog.entry.preImageOpTime ∧
      newOp.entry.postImageOpTime = oplog.entry.postImageOpTime ∧
      newOp.preImageOp = oplog.preImageOp ∧
      newOp.postImageOp = oplog.postImageOp ∧
      newOp.entry.destinedRecipient = oplog.entry.destinedRecipient ∧
      newOp.entry.oid = oplog.entry.oid ∧
      newOp.entry.opTime = oplog.entry.opTime ∧
      newOp.entry.hash = oplog.entry.hash ∧
      newOp.entry.fromMigrate = oplog.entry.fromMigrate ∧
      newOp.entry.version = oplog.entry.version ∧
      newOp.entry.upsert = oplog.entry.upsert ∧
      newOp.entry.wallClockTime = oplog.entry.wallClockTime ∧
      newOp.entry.prevWriteOpTime = oplog.entry.prevWriteOpTime) := by
  unfold preProcessOneOplog
  by_cases h1 : cfg.nsBeingResharded = oplog.entry.nss
  · by_cases h2 : some cfg.uuidBeingResharded = oplog.entry.uuid
    · rw [if_neg (by simp [h1]), if_neg (by simp [h2])]
      constructor
      · constructor
        · rintro ⟨e, he⟩
          exact absurd he (by simp)
        · rintro (hc | hc)
          · exact absurd h1.symm hc
          · exact absurd h2.symm hc
      · rintro newOp hok
        injection hok with hnew
        subst hnew
        exact ⟨rfl, rfl, rfl, rfl, rfl, rfl, rfl, rfl, rfl, rfl, rfl, rfl,
               rfl, rfl, rfl, rfl, rfl, rfl, rfl, rfl, rfl⟩
    · rw [if_neg (by simp [h1]), if_pos h2]
      constructor
      · exact ⟨fun _ => Or.inr (fun hh => h2 hh.symm),
               fun _ => ⟨5012005, rfl⟩⟩
      · rintro newOp hok
        exact absurd hok (by simp)
  · rw [if_pos h1]
    constructor
    · exact ⟨fun _ => Or.inl (fun hh => h1 hh.symm),
             fun _ => ⟨5012002, rfl⟩⟩
    · rintro newOp hok
      exact absurd hok (by simp)

/-- The sample entry after preprocessing by the sample config. -/
def samplePreprocessed : OplogEntry :=
  ((preProcessOneOplog sampleConfig sampleSessionOp).toOption).getD
    sampleSessionOp

/-- Witness for C10 at the sample input: the sample entry is accepted,
and comes out renamed to the output namespace with the UUID cleared and
the session identity intact. -/
theorem preprocess_sample_witness :
    preProcessOneOplog sampleConfig sampleSessionOp =
      Except.ok samplePreprocessed ∧
    samplePreprocessed.entry.nss = sampleConfig.outputNs ∧
    samplePreprocessed.entry.uuid = none ∧
    samplePreprocessed.entry.sessionId = sampleSessionOp.entry.sessionId := by
  have h :=
    (preprocess_accepts_exactly_matching_records sampleConfig
      sampleSessionOp).2 samplePreprocessed rfl
  exact ⟨rfl, h.1, h.2.1, h.2.2.2.2.2.1⟩

/-! ### C2 — per-session tracking during partitioning -/

/-- C2: during the partitioning loop, a record carrying a session
identity (and therefore a transaction number) updates the session
tracker by the three-way comparison with the tracked transaction
number: equal appends the record to the tracked op list, strictly
greater resets the tracked list to just this record (the uninitialized
tracked number, modelled as none for the C++ -1, counts as smaller than
any transaction number), and strictly smaller fails fatally with
uassert code 4990401.  The record itself is routed to its writer vector
in every non-fatal case. -/
theorem session_tracking_three_way (hasher : Nat → Nat)
    (nsHasher : String → Nat) (st : FillState) (op : OplogEntry)
    (sid txnNumber : Nat)
    (hsid : op.entry.sessionId = some sid)
    (htxn : op.entry.txnNumber = some txnNumber)
    (hp : op.entry.shouldPrepareFlag = false)
    (hpc : op.entry.isPreparedCommitFlag = false)
    (hnoop : op.entry.opType ≠ OpTypeEnum.kNoop) :
    (((st.sessionTracker.lookup sid).getD {}).txnNum = some txnNumber →
      fillStep hasher nsHasher st op =
        Except.ok
          { wv := addToWriterVector hasher nsHasher op st.wv
            sessionTracker := setAssoc st.sessionTracker sid
              { txnNum := some txnNumber
                ops := ((st.sessionTracker.lookup sid).getD {}).ops ++ [op] } }) ∧
    (∀ t0, ((st.sessionTracker.lookup sid).getD {}).txnNum = some t0 →
      t0 < txnNumber →
      fillStep hasher nsHasher st op =
        Except.ok
          { wv := addToWriterVector hasher nsHasher op st.wv
            sessionTracker := setAssoc st.sessionTracker sid
              { txnNum := some txnNumber, ops := [op] } }) ∧
    (((st.sessionTracker.lookup sid).getD {}).txnNum = none →
      fillStep hasher nsHasher st op =
        Except.ok
          { wv := addToWriterVector hasher nsHasher op st.wv
            sessionTracker := setAssoc st.sessionTracker sid
              { txnNum := some txnNumber, ops := [op] } }) ∧
    (∀ t0, ((st.sessionTracker.lookup sid).getD {}).txnNum = some t0 →
      txnNumber < t0 →
      fillStep hasher nsHasher st op = Except.error 4990401) := by
  unfold fillStep
  rw [if_neg (by simp [hp]), if_neg (by simp [hpc]), if_neg hnoop]
  rw [hsid, htxn]
  refine ⟨?_, ?_, ?_, ?_⟩
  · intro heq
    simp [heq]
  · intro t0 heq hlt
    simp [heq, hlt]
    intro h'
    exact absurd h' (by omega)
  · intro heq
    simp [heq]
  · intro t0 heq hlt
    simp only [heq]
    rw [if_neg (by omega : ¬ t0 = txnNumber), if_neg (by omega : ¬ t0 < txnNumber)]

/-! ### C1 — session records always land in the session-hash slot -/

/-- Every record in slot j that carries a session identity got there by
the session-identity hash modulo the worker count. -/
def sessionSlotInvariant (hasher : Nat → Nat) (n : Nat)
    (wv : List (List OplogEntry)) : Prop :=
  ∀ j e, e ∈ wv.getD j [] → ∀ sid, e.entry.sessionId = some sid →
    j = hasher sid % n

theorem sessionSlotInvariant_updateSlot (hasher : Nat → Nat) (n : Nat)
    (wv : List (List OplogEntry)) (i : Nat) (x : OplogEntry)
    (hinv : sessionSlotInvariant hasher n wv)
    (hx : ∀ sid, x.entry.sessionId = some sid → i = hasher sid % n) :
    sessionSlotInvariant hasher n (updateSlot wv i x) := by
  intro j e hmem sid hsid
  rcases mem_getD_updateSlot wv i j x e hmem with h | ⟨he, hj⟩
  · exact hinv j e h sid hsid
  · subst he
    rw [hj]
    exact hx sid hsid

theorem length_addToWriterVector (hasher : Nat → Nat)
    (nsHasher : String → Nat) (op : OplogEntry)
    (wv : List (List OplogEntry)) :
    (addToWriterVector hasher nsHasher op wv).length = wv.length := by
  unfold addToWriterVector
  cases op.entry.sessionId <;> simp [length_updateSlot]

theorem sessionSlotInvariant_addToWriterVector (hasher : Nat → Nat)
    (nsHasher : String → Nat) (n : Nat) (op : OplogEntry)
    (wv : List (List OplogEntry)) (hlen : wv.length = n)
    (hinv : sessionSlotInvariant hasher n wv) :
    sessionSlotInvariant hasher n (addToWriterVector hasher nsHasher op wv) := by
  unfold addToWriterVector
  cases hs : op.entry.sessionId with
  | none =>
    refine sessionSlotInvariant_updateSlot hasher n wv _ op hinv ?_
    intro sid hsid
    rw [hs] at hsid
    cases hsid
  | some sid0 =>
    refine sessionSlotInvariant_updateSlot hasher n wv _ op hinv ?_
    intro sid hsid
    rw [hs] at hsid
    injection hsid with hsid'
    rw [hlen, hsid']

theorem fillStep_ok_wv (hasher : Nat → Nat) (nsHasher : String → Nat)
    (st : FillState) (op : OplogEntry) (st' : FillState)
    (h : fillStep hasher nsHasher st op = Except.ok st') :
    st'.wv = st.wv ∨ st'.wv = addToWriterVector hasher nsHasher op st.wv := by
  unfold fillStep at h
  split at h
  · cases h
  split at h
  · cases h
  split at h
  · injection h with h'
    subst h'
    exact Or.inl rfl
  · simp only [] at h
    split at h
    · injection h with h'
      subst h'
      exact Or.inr rfl
    · split at h
      · cases h
      · split at h
        · split at h
          · injection h with h'
            subst h'
            exact Or.inr rfl
          · split at h
            · injection h with h'
              subst h'
              exact Or.inr rfl
            · cases h
        · injection h with h'
          subst h'
          exact Or.inr rfl

theorem fillLoop_preserves (hasher : Nat → Nat) (nsHasher : String → Nat)
    (n : Nat) (batch : List OplogEntry) :
    ∀ st st', fillLoop hasher nsHasher batch st = Except.ok st' →
      st.wv.length = n → sessionSlotInvariant hasher n st.wv →
      st'.wv.length = n ∧ sessionSlotInvariant hasher n st'.wv := by
  induction batch with
  | nil =>
    intro st st' h hlen hinv
    injection h with h'
    subst h'
    exact ⟨hlen, hinv⟩
  | cons op rest ih =>
    intro st st' h hlen hinv
    unfold fillLoop at h
    cases hstep : fillStep hasher nsHasher st op with
    | error e => rw [hstep] at h; cases h
    | ok st1 =>
      rw [hstep] at h
      rcases fillStep_ok_wv hasher nsHasher st op st1 hstep with hw | hw
      · exact ih st1 st' h (by rw [hw, hlen]) (by rw [hw]; exact hinv)
      · refine ih st1 st' h ?_ ?_
        · rw [hw, length_addToWriterVector, hlen]
        · rw [hw]
          exact sessionSlotInvariant_addToWriterVector hasher nsHasher n op
            st.wv hlen hinv

theorem addDerived_preserves (hasher : Nat → Nat) (n : Nat)
    (derived : List OplogEntry) :
    ∀ wv wv', addDerivedOpsToWriterVector hasher wv derived = Except.ok wv' →
      wv.length = n → sessionSlotInvariant hasher n wv →
      wv'.length = n ∧ sessionSlotInvariant hasher n wv' := by
  induction derived with
  | nil =>
    intro wv wv' h hlen hinv
    injection h with h'
    subst h'
    exact ⟨hlen, hinv⟩
  | cons op rest ih =>
    intro wv wv' h hlen hinv
    unfold addDerivedOpsToWriterVector at h
    split at h
    · cases h
    · cases hs : op.entry.sessionId with
      | none => rw [hs] at h; cases h
      | some sid =>
        rw [hs] at h
        refine ih _ wv' h ?_ ?_
        · rw [length_updateSlot, hlen]
        · refine sessionSlotInvariant_updateSlot hasher n wv _ op hinv ?_
          intro sid' hsid'
          rw [hs] at hsid'
          injection hsid' with h''
          rw [hlen, h'']

/-- C1: whenever _fillWriterVectors succeeds, every record placed in
any worker slot that carries a session identity — the batch's real
records and every derived shadow record alike — sits in the slot given
by the stable hash of its session identity modulo the worker count.  In
particular a session's shadow records land in the same slot as that
session's real records. -/
theorem session_records_routed_by_session_hash (numWriters : Nat)
    (hasher : Nat → Nat) (nsHasher : String → Nat)
    (batch derivedIn : List OplogEntry)
    (wv : List (List OplogEntry)) (derivedOut : List OplogEntry)
    (h : fillWriterVectors numWriters hasher nsHasher batch derivedIn =
      Except.ok (wv, derivedOut)) :
    ∀ j e, e ∈ wv.getD j [] → ∀ sid, e.entry.sessionId = some sid →
      j = hasher sid % numWriters := by
  unfold fillWriterVectors at h
  cases hloop : fillLoop hasher nsHasher batch
      { wv := List.replicate numWriters [], sessionTracker := [] } with
  | error e => rw [hloop] at h; cases h
  | ok fillSt =>
    rw [hloop] at h
    simp only [] at h
    cases hadd : addDerivedOpsToWriterVector hasher fillSt.wv
        (derivedIn ++ deriveNewOps fillSt.sessionTracker) with
    | error e => rw [hadd] at h; cases h
    | ok wv2 =>
      rw [hadd] at h
      injection h with h'
      have hwv : wv2 = wv := congrArg Prod.fst h'
      subst hwv
      have hinit : sessionSlotInvariant hasher numWriters
          (List.replicate numWriters ([] : List OplogEntry)) := by
        intro j e hmem sid hsid
        rw [getD_replicate_nil] at hmem
        cases hmem
      have hloopInv := fillLoop_preserves hasher nsHasher numWriters batch
        _ _ hloop (by simp) hinit
      have haddInv := addDerived_preserves hasher numWriters
        (derivedIn ++ deriveNewOps fillSt.sessionTracker) _ _ hadd
        hloopInv.1 hloopInv.2
      exact haddInv.2

/-- The derived shadow record of the sample session op. -/
def sampleShadow : OplogEntry :=
  convertToNoOpWithReshardingTag sampleSessionOp

/-- _fillWriterVectors run over a three-worker pool on the sample
batch. -/
def sampleFillResult : List (List OplogEntry) × List OplogEntry :=
  ((fillWriterVectors 3 (fun s => s) (fun _ => 0) [sampleSessionOp]
      []).toOption).getD ([], [])

/-- Witness for C1: with three workers and the identity hash, the
sample session op (session id 11) and its shadow record both sit in
slot 2 = 11 % 3. -/
theorem session_records_routed_witness :
    fillWriterVectors 3 (fun s => s) (fun _ => 0) [sampleSessionOp] [] =
      Except.ok (sampleFillResult.1, sampleFillResult.2) ∧
    sampleShadow ∈ sampleFillResult.1.getD 2 [] ∧
    2 = (fun s : Nat => s) 11 % 3 := by
  have hmem : sampleShadow ∈ sampleFillResult.1.getD 2 [] := by
    have hslot : sampleFillResult.1.getD 2 [] =
        [sampleSessionOp, sampleShadow] := rfl
    rw [hslot]
    exact List.mem_cons_of_mem _ (List.mem_cons_self _ _)
  exact ⟨rfl, hmem,
    session_records_routed_by_session_hash 3 (fun s => s) (fun _ => 0)
      [sampleSessionOp] [] sampleFillResult.1 sampleFillResult.2 rfl 2
      sampleShadow hmem 11 rfl⟩

/-! ### C9 — prepared transactions are rejected during partitioning -/

theorem fillStep_error_of_flagged (hasher : Nat → Nat)
    (nsHasher : String → Nat) (st : FillState) (op : OplogEntry)
    (hflag : op.entry.shouldPrepareFlag = true ∨
      op.entry.isPreparedCommitFlag = true) :
    ∃ e, fillStep hasher nsHasher st op = Except.error e := by
  unfold fillStep
  by_cases h1 : op.entry.shouldPrepareFlag = true
  · exact ⟨5012000, by rw [if_pos h1]⟩
  · have h2 : op.entry.isPreparedCommitFlag = true := by
      rcases hflag with h | h
      · exact absurd h h1
      · exact h
    exact ⟨5012001, by rw [if_neg h1, if_pos h2]⟩

theorem fillStep_error_mem (hasher : Nat → Nat) (nsHasher : String → Nat)
    (st : FillState) (op : OplogEntry) (e : Nat)
    (h : fillStep hasher nsHasher st op = Except.error e) :
    (e = 5012000 ∧ op.entry.shouldPrepareFlag = true) ∨
    (e = 5012001 ∧ op.entry.isPreparedCommitFlag = true) ∨
    e = 0 ∨ e = 4990401 := by
  unfold fillStep at h
  split at h
  · rename_i hc
    injection h with h'
    exact Or.inl ⟨h'.symm, hc⟩
  split at h
  · rename_i hc
    injection h with h'
    exact Or.inr (Or.inl ⟨h'.symm, hc⟩)
  split at h
  · cases h
  · simp only [] at h
    split at h
    · cases h
    · split at h
      · injection h with h'
        exact Or.inr (Or.inr (Or.inl h'.symm))
      · split at h
        · split at h
          · cases h
          · split at h
            · cases h
            · injection h with h'
              exact Or.inr (Or.inr (Or.inr h'.symm))
        · cases h

theorem fillLoop_error_of_flagged (hasher : Nat → Nat)
    (nsHasher : String → Nat) (batch : List OplogEntry) :
    ∀ st, (∃ op ∈ batch, op.entry.shouldPrepareFlag = true ∨
        op.entry.isPreparedCommitFlag = true) →
      ∃ e, fillLoop hasher nsHasher batch st = Except.error e := by
  induction batch with
  | nil =>
    rintro st ⟨op, hmem, _⟩
    cases hmem
  | cons op0 rest ih =>
    rintro st ⟨op, hmem, hflag⟩
    cases hstep : fillStep hasher nsHasher st op0 with
    | error e =>
      exact ⟨e, by unfold fillLoop; rw [hstep]⟩
    | ok st1 =>
      rcases List.mem_cons.mp hmem with heq | hmem'
      · subst heq
        obtain ⟨e, he⟩ := fillStep_error_of_flagged hasher nsHasher st op hflag
        rw [hstep] at he
        cases he
      · obtain ⟨e, he⟩ := ih st1 ⟨op, hmem', hflag⟩
        exact ⟨e, by unfold fillLoop; rw [hstep]; exact he⟩

theorem fillLoop_prepared_error_has_flag (hasher : Nat → Nat)
    (nsHasher : String → Nat) (batch : List OplogEntry) :
    ∀ st e, fillLoop hasher nsHasher batch st = Except.error e →
      (e = 5012000 ∨ e = 5012001) →
      ∃ op ∈ batch, op.entry.shouldPrepareFlag = true ∨
        op.entry.isPreparedCommitFlag = true := by
  induction batch with
  | nil =>
    intro st e h _
    cases h
  | cons op0 rest ih =>
    intro st e h hcode
    unfold fillLoop at h
    cases hstep : fillStep hasher nsHasher st op0 with
    | error e' =>
      rw [hstep] at h
      injection h with h'
      rw [← h'] at hcode
      rcases fillStep_error_mem hasher nsHasher st op0 e' hstep with
        ⟨_, hf⟩ | ⟨_, hf⟩ | h0 | h0
      · exact ⟨op0, List.mem_cons_self _ _, Or.inl hf⟩
      · exact ⟨op0, List.mem_cons_self _ _, Or.inr hf⟩
      · subst h0; rcases hcode with hc | hc <;> omega
      · subst h0; rcases hcode with hc | hc <;> omega
    | ok st1 =>
      rw [hstep] at h
      obtain ⟨op, hmem, hflag⟩ := ih st1 e h hcode
      exact ⟨op, List.mem_cons_of_mem _ hmem, hflag⟩

theorem addDerived_error_mem (hasher : Nat → Nat)
    (derived : List OplogEntry) :
    ∀ wv e, addDerivedOpsToWriterVector hasher wv derived = Except.error e →
      e = 1 ∨ e = 4990403 := by
  induction derived with
  | nil =>
    intro wv e h
    cases h
  | cons op rest ih =>
    intro wv e h
    unfold addDerivedOpsToWriterVector at h
    split at h
    · injection h with h'
      exact Or.inl h'.symm
    · cases hs : op.entry.sessionId with
      | none =>
        rw [hs] at h
        injection h with h'
        exact Or.inr h'.symm
      | some sid =>
        rw [hs] at h
        exact ih _ e h

/-- C9: if any record of a batch belongs to a prepared transaction
(shouldPrepare or isPreparedCommit), partitioning the batch fails with
an error, so no writer vectors are produced and no record of the batch
reaches a worker slot; and the prepared-transaction error codes 5012000
and 5012001 only ever arise from a batch containing such a record. -/
theorem prepared_transactions_fail_partitioning (numWriters : Nat)
    (hasher : Nat → Nat) (nsHasher : String → Nat)
    (batch derivedIn : List OplogEntry) :
    ((∃ op ∈ batch, op.entry.shouldPrepareFlag = true ∨
        op.entry.isPreparedCommitFlag = true) →
      ∃ e, fillWriterVectors numWriters hasher nsHasher batch derivedIn =
        Except.error e) ∧
    (∀ e, fillWriterVectors numWriters hasher nsHasher batch derivedIn =
        Except.error e →
      (e = 5012000 ∨ e = 5012001) →
      ∃ op ∈ batch, op.entry.shouldPrepareFlag = true ∨
        op.entry.isPreparedCommitFlag = true) := by
  constructor
  · intro hflagged
    obtain ⟨e, he⟩ := fillLoop_error_of_flagged hasher nsHasher batch
      { wv := List.replicate numWriters [], sessionTracker := [] } hflagged
    exact ⟨e, by unfold fillWriterVectors; rw [he]⟩
  · intro e h hcode
    unfold fillWriterVectors at h
    cases hloop : fillLoop hasher nsHasher batch
        { wv := List.replicate numWriters [], sessionTracker := [] } with
    | error e' =>
      rw [hloop] at h
      injection h with h'
      rw [← h'] at hcode
      exact fillLoop_prepared_error_has_flag hasher nsHasher batch _ e'
        hloop hcode
    | ok fillSt =>
      rw [hloop] at h
      simp only [] at h
      cases hadd : addDerivedOpsToWriterVector hasher fillSt.wv
          (derivedIn ++ deriveNewOps fillSt.sessionTracker) with
      | error e' =>
        rw [hadd] at h
        injection h with h'
        rw [← h'] at hcode
        rcases addDerived_error_mem hasher _ _ e' hadd with h1 | h1 <;>
          rcases hcode with hc | hc <;> omega
      | ok wv2 =>
        rw [hadd] at h
        cases h

/-- A sample record belonging to a prepared transaction. -/
def samplePreparedOp : OplogEntry :=
  { entry := { sampleDurable with shouldPrepareFlag := true } }

/-- Witness for C9: a batch holding a prepared-transaction record makes
partitioning fail. -/
theorem prepared_transactions_fail_witness :
    (∃ op ∈ [samplePreparedOp],
      op.entry.shouldPrepareFlag = true ∨
      op.entry.isPreparedCommitFlag = true) ∧
    ∃ e, fillWriterVectors 1 (fun s => s) (fun _ => 0) [samplePreparedOp] [] =
      Except.error e := by
  have hflag : ∃ op ∈ [samplePreparedOp],
      op.entry.shouldPrepareFlag = true ∨
      op.entry.isPreparedCommitFlag = true :=
    ⟨samplePreparedOp, List.mem_cons_self _ _, Or.inl rfl⟩
  exact ⟨hflag,
    (prepared_transactions_fail_partitioning 1 (fun s => s) (fun _ => 0)
      [samplePreparedOp] []).1 hflag⟩

/-! ### C5 — consolidation and delivery of worker statuses -/

/-- How one reported status folds into the consolidated status: a
non-OK status overwrites it, an OK status leaves it. -/
def mergeStatus (acc s : Status) : Status :=
  match s with
  | Status.ok => acc
  | Status.error c => Status.error c

/-- The consolidated status a sequence of worker completions produces:
the most recently observed non-success status, or OK if all
succeeded. -/
def lastErrorStatus (l : List Status) : Status :=
  l.foldl mergeStatus Status.ok

theorem foldl_onWriterVectorDone_incomplete (l : List Status) :
    ∀ (r : Nat) (c : Status), l.length < r →
      l.foldl onWriterVectorDone
        { remainingWritersToWait := r
          currentBatchConsolidatedStatus := c
          promise := none } =
      { remainingWritersToWait := r - l.length
        currentBatchConsolidatedStatus := l.foldl mergeStatus c
        promise := none } := by
  induction l with
  | nil => intro r c _; simp
  | cons s rest ih =>
    intro r c hlt
    have hstep : onWriterVectorDone
        { remainingWritersToWait := r
          currentBatchConsolidatedStatus := c
          promise := none } s =
        { remainingWritersToWait := r - 1
          currentBatchConsolidatedStatus := mergeStatus c s
          promise := none } := by
      unfold onWriterVectorDone
      have hr : ¬ (r - 1 = 0) := by simp at hlt; omega
      simp only [if_neg hr]
      cases s <;> rfl
    rw [List.foldl_cons, hstep, ih (r - 1) (mergeStatus c s)
      (by simp at hlt; omega)]
    simp only [List.length_cons]
    congr 1
    omega

theorem foldl_onWriterVectorDone_complete (l : List Status) :
    ∀ (r : Nat) (c : Status), l.length = r → 0 < r →
      l.foldl onWriterVectorDone
        { remainingWritersToWait := r
          currentBatchConsolidatedStatus := c
          promise := none } =
      { remainingWritersToWait := 0
        currentBatchConsolidatedStatus := l.foldl mergeStatus c
        promise := some (l.foldl mergeStatus c) } := by
  induction l with
  | nil =>
    intro r c hlen hr
    simp at hlen
    omega
  | cons s rest ih =>
    intro r c hlen hr
    cases rest with
    | nil =>
      have hr1 : r = 1 := by simp at hlen; omega
      subst hr1
      unfold onWriterVectorDone
      simp only [List.foldl_cons, List.foldl_nil]
      cases s <;> rfl
    | cons s2 rest2 =>
      have hstep : onWriterVectorDone
          { remainingWritersToWait := r
            currentBatchConsolidatedStatus := c
            promise := none } s =
          { remainingWritersToWait := r - 1
            currentBatchConsolidatedStatus := mergeStatus c s
            promise := none } := by
        unfold onWriterVectorDone
        have hr1 : ¬ (r - 1 = 0) := by
          simp only [List.length_cons] at hlen
          omega
        simp only [if_neg hr1]
        cases s <;> rfl
      rw [List.foldl_cons, hstep,
        ih (r - 1) (mergeStatus c s)
          (by simp only [List.length_cons] at hlen ⊢; omega)
          (by simp only [List.length_cons] at hlen; omega)]
      rfl

/-- C5 counterexample: two workers report the distinct errors 1 and 2;
the delivered consolidated status is the error 2 — the last non-success
observed — not the first non-success (error 1), so "the first
non-success status observed is retained" fails. -/
theorem first_error_not_retained_counterexample :
    (([Status.error 1, Status.error 2].foldl onWriterVectorDone
        { remainingWritersToWait := 2
          currentBatchConsolidatedStatus := Status.ok
          promise := none }).promise = some (Status.error 2)) ∧
    (([Status.error 1, Status.error 2].foldl onWriterVectorDone
        { remainingWritersToWait := 2
          currentBatchConsolidatedStatus := Status.ok
          promise := none }).promise ≠ some (Status.error 1)) := by
  constructor
  · rfl
  · decide

/-- C5 amended: for every sequence of worker completions for a batch of
n ≥ 1 writer slots, the consolidated status retained is the most recent
non-success status observed (so once set to an error a later success
does not clear it, though a later distinct error replaces it), and the
consolidated status is delivered to the batch's single waiter exactly
when the outstanding worker count reaches zero: the promise is
unfulfilled after every proper prefix of the completions and carries
the consolidated status after the last one. -/
theorem consolidated_status_last_error_delivered_at_zero
    (statuses : List Status) (n : Nat) (hlen : statuses.length = n)
    (hn : 0 < n) :
    ((statuses.foldl onWriterVectorDone
        { remainingWritersToWait := n
          currentBatchConsolidatedStatus := Status.ok
          promise := none }).promise = some (lastErrorStatus statuses)) ∧
    (∀ k, k < n →
      ((statuses.take k).foldl onWriterVectorDone
        { remainingWritersToWait := n
          currentBatchConsolidatedStatus := Status.ok
          promise := none }).promise = none) := by
  constructor
  · rw [foldl_onWriterVectorDone_complete statuses n Status.ok hlen hn]
    rfl
  · intro k hk
    rw [foldl_onWriterVectorDone_incomplete (statuses.take k) n Status.ok
      (by rw [List.length_take]; omega)]

/-- Witness for the amended C5: two workers, first succeeds, second
fails with error 7; nothing is delivered after the first completion and
error 7 is delivered after the second. -/
theorem consolidated_status_witness :
    ([Status.ok, Status.error 7].length = 2) ∧ (0 < 2) ∧
    (([Status.ok, Status.error 7].foldl onWriterVectorDone
        { remainingWritersToWait := 2
          currentBatchConsolidatedStatus := Status.ok
          promise := none }).promise =
      some (lastErrorStatus [Status.ok, Status.error 7])) ∧
    (([Status.ok, Status.error 7].take 1).foldl onWriterVectorDone
        { remainingWritersToWait := 2
          currentBatchConsolidatedStatus := Status.ok
          promise := none }).promise = none := by
  have h := consolidated_status_last_error_delivered_at_zero
    [Status.ok, Status.error 7] 2 rfl (by decide)
  exact ⟨rfl, by decide, h.1, h.2 1 (by decide)⟩

/-! ### C3 — idempotence of applying a shadow retry record -/

theorem insertPrePostImage_keeps_sessions (st : SessionApplyState)
    (img : DurableOplogEntry) (t : Nat) (st' : SessionApplyState)
    (h : insertPrePostImageOplogEntry st img = Except.ok (t, st')) :
    st'.sessions = st.sessions := by
  unfold insertPrePostImageOplogEntry at h
  split at h
  · cases h
  split at h
  · cases h
  · injection h with h'
    rw [← (Prod.mk.inj h').2]

theorem applyRetryableWritePhase_sessions (st : SessionApplyState)
    (oplog : OplogEntry) (sid txnNumber : Nat) (stmtId : Int)
    (executedStmts : List Int) (lastWriteOpTime : Nat)
    (st' : SessionApplyState)
    (h : applyRetryableWritePhase st oplog sid txnNumber stmtId
      executedStmts lastWriteOpTime = Except.ok st') :
    ∃ m, st'.sessions = setAssoc st.sessions sid
      { activeTxnNum := txnNumber
        executedStmts := executedStmts ++ [stmtId]
        lastWriteOpTime := m } := by
  unfold applyRetryableWritePhase at h
  cases hpre : oplog.preImageOp with
  | some img =>
    rw [hpre] at h
    simp only [] at h
    cases himg : insertPrePostImageOplogEntry st img with
    | error e => rw [himg] at h; cases h
    | ok p =>
      obtain ⟨tval, st1⟩ := p
      rw [himg] at h
      simp only [] at h
      split at h
      · cases h
      · injection h with h'
        refine ⟨st1.nextOpTime, ?_⟩
        rw [← h']
        simp only []
        rw [insertPrePostImage_keeps_sessions st img tval st1 himg]
  | none =>
    rw [hpre] at h
    simp only [] at h
    cases hpost : oplog.postImageOp with
    | some img =>
      rw [hpost] at h
      simp only [] at h
      cases himg : insertPrePostImageOplogEntry st img with
      | error e => rw [himg] at h; cases h
      | ok p =>
        obtain ⟨tval, st1⟩ := p
        rw [himg] at h
        simp only [] at h
        split at h
        · cases h
        · injection h with h'
          refine ⟨st1.nextOpTime, ?_⟩
          rw [← h']
          simp only []
          rw [insertPrePostImage_keeps_sessions st img tval st1 himg]
    | none =>
      rw [hpost] at h
      simp only [] at h
      split at h
      · cases h
      · injection h with h'
        refine ⟨st.nextOpTime, ?_⟩
        rw [← h']

/-- C3: (i) applying a shadow retry record whose statement id is
already recorded as executed for its session (at the session's active
transaction number) returns success with the destination state
unchanged — nothing is applied; (ii) consequently the operation is
idempotent: whenever applying a shadow retry record succeeds, applying
the very same record again succeeds and leaves the state exactly as
after the first application. -/
theorem shadow_retry_record_idempotent :
    (∀ (st : SessionApplyState) (oplog : OplogEntry) (sid txn : Nat)
        (s : Int) (r : SessionRecord),
      oplog.entry.sessionId = some sid →
      oplog.entry.txnNumber = some txn →
      oplog.entry.stmtId = some s →
      st.sessions.lookup sid = some r →
      r.activeTxnNum = txn →
      s ∈ r.executedStmts →
      insertOplogAndUpdateConfigForRetryable st oplog = Except.ok st) ∧
    (∀ (st st' : SessionApplyState) (oplog : OplogEntry),
      insertOplogAndUpdateConfigForRetryable st oplog = Except.ok st' →
      insertOplogAndUpdateConfigForRetryable st' oplog = Except.ok st') := by
  constructor
  · intro st oplog sid txn s r hsid htxn hstmt hlk hact hmem
    unfold insertOplogAndUpdateConfigForRetryable
    rw [hsid, htxn, hstmt]
    simp only []
    rw [hlk]
    simp only []
    rw [if_neg (by omega : ¬ txn < r.activeTxnNum), if_pos hact.symm,
      if_pos hmem]
  · intro st st' oplog h
    unfold insertOplogAndUpdateConfigForRetryable at h
    cases hsid : oplog.entry.sessionId with
    | none => rw [hsid] at h; cases h
    | some sid =>
      cases htxn : oplog.entry.txnNumber with
      | none => rw [hsid, htxn] at h; cases h
      | some txn =>
        cases hstmt : oplog.entry.stmtId with
        | none => rw [hsid, htxn, hstmt] at h; cases h
        | some s =>
          rw [hsid, htxn, hstmt] at h
          simp only [] at h
          have hgoal : ∀ rec : SessionRecord,
              st'.sessions.lookup sid = some rec →
              rec.activeTxnNum = txn → s ∈ rec.executedStmts →
              insertOplogAndUpdateConfigForRetryable st' oplog =
                Except.ok st' := by
            intro rec hlk' hact' hmem'
            unfold insertOplogAndUpdateConfigForRetryable
            rw [hsid, htxn, hstmt]
            simp only []
            rw [hlk']
            simp only []
            rw [if_neg (by omega : ¬ txn < rec.activeTxnNum),
              if_pos hact'.symm, if_pos hmem']
          cases hlk : st.sessions.lookup sid with
          | some r =>
            rw [hlk] at h
            simp only [] at h
            by_cases h1 : txn < r.activeTxnNum
            · rw [if_pos h1] at h
              injection h with h'
              subst h'
              unfold insertOplogAndUpdateConfigForRetryable
              rw [hsid, htxn, hstmt]
              simp only []
              rw [hlk]
              simp only []
              rw [if_pos h1]
            · rw [if_neg h1] at h
              by_cases h2 : txn = r.activeTxnNum
              · rw [if_pos h2] at h
                by_cases h3 : s ∈ r.executedStmts
                · rw [if_pos h3] at h
                  injection h with h'
                  subst h'
                  exact hgoal r hlk h2.symm h3
                · rw [if_neg h3] at h
                  obtain ⟨m, hsess⟩ := applyRetryableWritePhase_sessions st
                    oplog sid txn s r.executedStmts r.lastWriteOpTime st' h
                  refine hgoal
                    { activeTxnNum := txn
                      executedStmts := r.executedStmts ++ [s]
                      lastWriteOpTime := m } ?_ rfl (by simp)
                  rw [hsess]
                  exact lookup_setAssoc_self st.sessions sid _
              · rw [if_neg h2] at h
                obtain ⟨m, hsess⟩ := applyRetryableWritePhase_sessions st
                  oplog sid txn s [] 0 st' h
                refine hgoal
                  { activeTxnNum := txn
                    executedStmts := [] ++ [s]
                    lastWriteOpTime := m } ?_ rfl (by simp)
                rw [hsess]
                exact lookup_setAssoc_self st.sessions sid _
          | none =>
            rw [hlk] at h
            simp only [] at h
            obtain ⟨m, hsess⟩ := applyRetryableWritePhase_sessions st
              oplog sid txn s [] 0 st' h
            refine hgoal
              { activeTxnNum := txn
                executedStmts := [] ++ [s]
                lastWriteOpTime := m } ?_ rfl (by simp)
            rw [hsess]
            exact lookup_setAssoc_self st.sessions sid _

/-- A destination-node state in which the sample record's statement 0
is already recorded as executed for session 11 at transaction 2. -/
def sampleSessionState : SessionApplyState :=
  { sessions :=
      [(11, { activeTxnNum := 2, executedStmts := [0], lastWriteOpTime := 1 })]
    oplog := []
    nextOpTime := 5
    now := 99 }

/-- Witness for C3: applying the sample record to a state that already
records its statement as executed returns success with the state
unchanged. -/
theorem shadow_retry_record_witness :
    sampleSessionState.sessions.lookup 11 =
      some { activeTxnNum := 2, executedStmts := [0], lastWriteOpTime := 1 } ∧
    insertOplogAndUpdateConfigForRetryable sampleSessionState
      sampleSessionOp = Except.ok sampleSessionState :=
  ⟨rfl,
   shadow_retry_record_idempotent.1 sampleSessionState sampleSessionOp 11 2 0
     { activeTxnNum := 2, executedStmts := [0], lastWriteOpTime := 1 }
     rfl rfl rfl rfl rfl (by decide)⟩

/-! ### C7 — checkpointing and reading stored progress -/

/-- C7: after a fully successful batch the checkpoint reads the batch
buffer's last record, upserts its resumption token into the progress
store keyed by the stream's source id, clears both in-memory buffers
(original and derived records) and returns the last record's timestamp;
checkStoredProgress finds nothing in an empty store and finds exactly
the token just persisted afterwards. -/
theorem checkpoint_stores_last_token (sourceId : Nat) (st : PipelineState)
    (front : List OplogEntry) (lastOplog : OplogEntry) (oplogId : Nat)
    (hbatch : st.currentBatchToApply = front ++ [lastOplog])
    (hid : lastOplog.entry.oid = some oplogId) :
    clearAppliedOpsAndStoreProgress sourceId st =
      (lastOplog.entry.opTime,
       { stage := st.stage
         currentBatchToApply := []
         currentDerivedOps := []
         progressStore := setAssoc st.progressStore sourceId oplogId }) ∧
    checkStoredProgress [] sourceId = none ∧
    checkStoredProgress (setAssoc st.progressStore sourceId oplogId)
      sourceId = some oplogId := by
  refine ⟨?_, rfl, lookup_setAssoc_self st.progressStore sourceId oplogId⟩
  unfold clearAppliedOpsAndStoreProgress
  rw [hbatch, List.getLast?_concat]
  simp [hid]

/-- A pipeline state whose batch buffer holds just the sample record,
with an empty progress store. -/
def samplePipelineState : PipelineState :=
  { stage := Stage.kStarted
    currentBatchToApply := [sampleSessionOp]
    currentDerivedOps := [sampleShadow]
    progressStore := [] }

/-- Witness for C7 at the sample state: the checkpoint returns
timestamp 5 (the sample record's), stores token 42 under source id 5,
clears both buffers, and checkStoredProgress flips from none to
some 42. -/
theorem checkpoint_stores_last_token_witness :
    samplePipelineState.currentBatchToApply = [] ++ [sampleSessionOp] ∧
    sampleSessionOp.entry.oid = some 42 ∧
    clearAppliedOpsAndStoreProgress 5 samplePipelineState =
      (sampleSessionOp.entry.opTime,
       { stage := samplePipelineState.stage
         currentBatchToApply := []
         currentDerivedOps := []
         progressStore := setAssoc samplePipelineState.progressStore 5 42 }) ∧
    checkStoredProgress [] 5 = none ∧
    checkStoredProgress (setAssoc samplePipelineState.progressStore 5 42) 5 =
      some 42 := by
  have h := checkpoint_stores_last_token 5 samplePipelineState []
    sampleSessionOp 42 rfl rfl
  exact ⟨rfl, rfl, h.1, h.2.1, h.2.2⟩

/-! ### C8 — an empty fetched batch is not an error -/

theorem foldl_mergeStatus_replicate_ok (n : Nat) (c : Status) :
    (List.replicate n Status.ok).foldl mergeStatus c = c := by
  induction n with
  | zero => rfl
  | succ m ih =>
    rw [List.replicate_succ, List.foldl_cons]
    exact ih

theorem applyBatchOutcome_all_empty (applySlot : List OplogEntry → Status)
    (n : Nat) (hn : 0 < n) :
    applyBatchOutcome applySlot (List.replicate n ([] : List OplogEntry)) =
      Status.ok := by
  unfold applyBatchOutcome applyBatchCompletion
  have hmap : (List.replicate n ([] : List OplogEntry)).map
      (fun w => if w.isEmpty then Status.ok else applySlot w) =
      List.replicate n Status.ok := by
    simp
  rw [hmap, List.length_replicate,
    foldl_onWriterVectorDone_complete (List.replicate n Status.ok) n
      Status.ok (by simp) hn,
    foldl_mergeStatus_replicate_ok]
  rfl

/-- C8: when the fetched batch is empty and the in-memory buffers are
empty (as they are after every committed checkpoint) while the pipeline
is in the Started stage, the iteration does not fail: it surfaces
success, reports that there is nothing more to apply right now
(moreToApply = false, so the driver stops recursing and returns to the
caller), writes no checkpoint, and leaves the error stage untouched —
the stage advances to ReachedCloningTS rather than ErrorOccurred. -/
theorem empty_batch_is_not_an_error (cfg : ApplierConfig)
    (hasher : Nat → Nat) (nsHasher : String → Nat)
    (applySlot : List OplogEntry → Status) (st : PipelineState)
    (hn : 0 < cfg.numWriters)
    (hb : st.currentBatchToApply = [])
    (hd : st.currentDerivedOps = [])
    (hs : st.stage = Stage.kStarted) :
    scheduleNextBatchOnce cfg hasher nsHasher applySlot st [] =
      { status := Status.ok
        state := { st with stage := Stage.kReachedCloningTS }
        moreToApply := false } := by
  obtain ⟨stage, batch, derived, store⟩ := st
  simp only [] at hb hd hs
  subst hb
  subst hd
  subst hs
  unfold scheduleNextBatchOnce
  have h1 : preProcessLoop cfg [] ([] : List OplogEntry) = ([], none) := rfl
  have h2 : fillLoop hasher nsHasher []
      { wv := List.replicate cfg.numWriters [], sessionTracker := [] } =
      Except.ok
        { wv := List.replicate cfg.numWriters [], sessionTracker := [] } :=
    rfl
  have h4 : addDerivedOpsToWriterVector hasher
      (List.replicate cfg.numWriters []) ([] ++ deriveNewOps []) =
      Except.ok (List.replicate cfg.numWriters []) := rfl
  have h5 := applyBatchOutcome_all_empty applySlot cfg.numWriters hn
  simp only []
  rw [h1]
  simp only []
  rw [h2]
  simp only []
  rw [h4]
  simp only []
  rw [h5]
  rfl

/-- Witness for C8: with one worker, an empty fetch in Started yields
success, no more to apply, and the stage advanced to
ReachedCloningTS. -/
theorem empty_batch_witness :
    0 < sampleConfig.numWriters ∧
    scheduleNextBatchOnce sampleConfig (fun s => s) (fun _ => 0)
        (fun _ => Status.ok)
        { stage := Stage.kStarted
          currentBatchToApply := []
          currentDerivedOps := []
          progressStore := [] } [] =
      { status := Status.ok
        state :=
          { stage := Stage.kReachedCloningTS
            currentBatchToApply := []
            currentDerivedOps := []
            progressStore := [] }
        moreToApply := false } :=
  ⟨by decide,
   empty_batch_is_not_an_error sampleConfig (fun s => s) (fun _ => 0)
     (fun _ => Status.ok)
     { stage := Stage.kStarted
       currentBatchToApply := []
       currentDerivedOps := []
       progressStore := [] }
     (by decide) rfl rfl rfl⟩

/-! ### C4 — a failed batch writes no checkpoint and halts -/

/-- C4: when the fetched batch preprocesses and partitions cleanly but
the workers' consolidated status is an error, the iteration surfaces
exactly that error, transitions the stage to ErrorOccurred, writes no
progress checkpoint (the progress store is untouched), keeps the
in-memory batch buffer (holding the preprocessed batch) and the
derived-op buffer uncleared, and does not continue to another batch. -/
theorem failed_batch_no_checkpoint (cfg : ApplierConfig)
    (hasher : Nat → Nat) (nsHasher : String → Nat)
    (applySlot : List OplogEntry → Status) (st : PipelineState)
    (fetched buf : List OplogEntry) (fillSt : FillState)
    (wv : List (List OplogEntry)) (c : Nat)
    (hpre : preProcessLoop cfg fetched st.currentBatchToApply = (buf, none))
    (hfill : fillLoop hasher nsHasher buf
      { wv := List.replicate cfg.numWriters [], sessionTracker := [] } =
      Except.ok fillSt)
    (hadd : addDerivedOpsToWriterVector hasher fillSt.wv
      (st.currentDerivedOps ++ deriveNewOps fillSt.sessionTracker) =
      Except.ok wv)
    (herr : applyBatchOutcome applySlot wv = Status.error c) :
    (scheduleNextBatchOnce cfg hasher nsHasher applySlot st
        fetched).status = Status.error c ∧
    (scheduleNextBatchOnce cfg hasher nsHasher applySlot st
        fetched).state.stage = Stage.kErrorOccurred ∧
    (scheduleNextBatchOnce cfg hasher nsHasher applySlot st
        fetched).state.progressStore = st.progressStore ∧
    (scheduleNextBatchOnce cfg hasher nsHasher applySlot st
        fetched).state.currentBatchToApply = buf ∧
    (scheduleNextBatchOnce cfg hasher nsHasher applySlot st
        fetched).state.currentDerivedOps =
      st.currentDerivedOps ++ deriveNewOps fillSt.sessionTracker ∧
    (scheduleNextBatchOnce cfg hasher nsHasher applySlot st
        fetched).moreToApply = false := by
  have hres : scheduleNextBatchOnce cfg hasher nsHasher applySlot st
      fetched =
      { status := Status.error c
        state := onErrorTransition
          { stage := st.stage
            currentBatchToApply := buf
            currentDerivedOps :=
              st.currentDerivedOps ++ deriveNewOps fillSt.sessionTracker
            progressStore := st.progressStore }
        moreToApply := false } := by
    unfold scheduleNextBatchOnce
    rw [hpre]
    simp only []
    rw [hfill]
    simp only []
    rw [hadd]
    simp only []
    rw [herr]
  rw [hres]
  exact ⟨rfl, rfl, rfl, rfl, rfl, rfl⟩

/-- The preprocessed batch buffer of the C4 witness run. -/
def c4buf : List OplogEntry :=
  (preProcessLoop sampleConfig [sampleSessionOp] []).1

/-- The partitioner state of the C4 witness run. -/
def c4fillSt : FillState :=
  ((fillLoop (fun s => s) (fun _ => 0) c4buf
      { wv := List.replicate sampleConfig.numWriters []
        sessionTracker := [] }).toOption).getD
    { wv := [], sessionTracker := [] }

/-- The finished writer vectors of the C4 witness run. -/
def c4wv : List (List OplogEntry) :=
  ((addDerivedOpsToWriterVector (fun s => s) c4fillSt.wv
      ([] ++ deriveNewOps c4fillSt.sessionTracker)).toOption).getD []

/-- Witness for C4: one worker failing with error 42 makes the
iteration surface error 42, reach ErrorOccurred, and leave the progress
store empty — no checkpoint. -/
theorem failed_batch_no_checkpoint_witness :
    applyBatchOutcome (fun _ => Status.error 42) c4wv = Status.error 42 ∧
    (scheduleNextBatchOnce sampleConfig (fun s => s) (fun _ => 0)
        (fun _ => Status.error 42)
        { stage := Stage.kStarted
          currentBatchToApply := []
          currentDerivedOps := []
          progressStore := [] } [sampleSessionOp]).status =
      Status.error 42 ∧
    (scheduleNextBatchOnce sampleConfig (fun s => s) (fun _ => 0)
        (fun _ => Status.error 42)
        { stage := Stage.kStarted
          currentBatchToApply := []
          currentDerivedOps := []
          progressStore := [] } [sampleSessionOp]).state.stage =
      Stage.kErrorOccurred ∧
    (scheduleNextBatchOnce sampleConfig (fun s => s) (fun _ => 0)
        (fun _ => Status.error 42)
        { stage := Stage.kStarted
          currentBatchToApply := []
          currentDerivedOps := []
          progressStore := [] } [sampleSessionOp]).state.progressStore =
      [] := by
  have h := failed_batch_no_checkpoint sampleConfig (fun s => s)
    (fun _ => 0) (fun _ => Status.error 42)
    { stage := Stage.kStarted
      currentBatchToApply := []
      currentDerivedOps := []
      progressStore := [] }
    [sampleSessionOp] c4buf c4fillSt c4wv 42 rfl rfl rfl rfl
  exact ⟨rfl, h.1, h.2.1, h.2.2.1⟩

/-- Witness for C2: a tracker already holding transaction 2 for
session 11 sees the sample record (same transaction): the record is
appended to the tracked list and routed to slot 11 % 2 = 1. -/
theorem session_tracking_witness :
    fillStep (fun s => s) (fun _ => 0)
      { wv := List.replicate 2 []
        sessionTracker := [(11, { txnNum := some 2, ops := [] })] }
      sampleSessionOp =
    Except.ok
      { wv := [[], [sampleSessionOp]]
        sessionTracker :=
          [(11, { txnNum := some 2, ops := [sampleSessionOp] })] } := by
  have h := (session_tracking_three_way (fun s => s) (fun _ => 0)
    { wv := List.replicate 2 []
      sessionTracker := [(11, { txnNum := some 2, ops := [] })] }
    sampleSessionOp 11 2 rfl rfl rfl rfl (by decide)).1 rfl
  exact h
